import Mathlib

/-
Verification of the kensho data-import scripts
(src/import-more-data.py and src/test-data-import.py).

Both scripts read a JSON document, select a contiguous slice of its
entries, map each entry into the request shape of the backend API, issue a
create-anime request and (on success, when the entry declares episodes)
a create-episodes request, and count successes and failures.

The embedding below models JSON values, the Python dict/string/slice
operations the scripts use (with their raising behaviour made explicit
through Except), the per-entry record construction, and the main loop.
The HTTP backend is abstracted as an oracle assigning to each processed
slice position the transport outcome of its two possible calls.
-/

namespace Kensho

/-- A JSON value, as parsed by the Python json loader. Numbers are modelled
as integers (the fields consumed by the scripts are integer-valued). -/
inductive Json where
  | null : Json
  | bool (b : Bool) : Json
  | num (n : Int) : Json
  | str (s : String) : Json
  | arr (elements : List Json) : Json
  | obj (fields : List (String × Json)) : Json


/-- First value bound to a key in a field list (Python dict lookup;
keys in a parsed JSON object are unique, so first match suffices). -/
def dictGet : List (String × Json) → String → Option Json
  | [], _ => none
  | (k, v) :: rest, key => if k = key then some v else dictGet rest key

/-- The Python dict get method d.get(key, default): returns the bound value or the
default when d is a dict, raises AttributeError when the receiver is
not a dict (e.g. animeSeason bound to a string). -/
def pyGet (j : Json) (key : String) (dflt : Json) : Except String Json :=
  match j with
  | .obj fields =>
    match dictGet fields key with
    | some v => .ok v
    | none => .ok dflt
  | _ => .error "AttributeError: object has no attribute get"

/-- Per-character lowercasing of a string (the Python string lower method on the
ASCII season strings the scripts handle). -/
def strLower (s : String) : String :=
  String.mk (s.data.map Char.toLower)

/-- The Python string lower method s.lower(): lowercases a string, raises AttributeError on a
non-string receiver. -/
def pyLower (j : Json) : Except String Json :=
  match j with
  | .str s => .ok (.str (strLower s))
  | _ => .error "AttributeError: object has no attribute lower"

/-- The Python slice x[:10]: truncates a list or a string to its first 10
items, raises TypeError on an unsliceable receiver. -/
def pySliceTen (j : Json) : Except String Json :=
  match j with
  | .arr xs => .ok (.arr (xs.take 10))
  | .str s => .ok (.str (String.mk (s.data.take 10)))
  | _ => .error "TypeError: object is not subscriptable"

/-- The nested anime_season object of the request body. -/
structure AnimeSeasonData where
  season : Json
  year : Json


/-- The anime_data request body built by both scripts for the
create-anime call. -/
structure AnimeData where
  title : Json
  synonyms : Json
  sources : Json
  episodes : Json
  status : Json
  anime_type : Json
  anime_season : AnimeSeasonData
  synopsis : Json
  poster_url : Json
  tags : Json


/-- Build the anime_data request body from a source entry, in the
evaluation order of the dict literal in the scripts. Missing keys fall back
to the fixed defaults; a wrong-typed animeSeason, season or tags value
raises (the construction sits outside the try block of the scripts). -/
def buildAnimeData (entry : Json) : Except String AnimeData := do
  let title ← pyGet entry "title" (.str "Unknown")
  let synonyms ← pyGet entry "synonyms" (.arr [])
  let sources ← pyGet entry "sources" (.arr [])
  let episodes ← pyGet entry "episodes" (.num 0)
  let status ← pyGet entry "status" (.str "UNKNOWN")
  let animeType ← pyGet entry "type" (.str "UNKNOWN")
  let animeSeason ← pyGet entry "animeSeason" (.obj [])
  let seasonRaw ← pyGet animeSeason "season" (.str "spring")
  let season ← pyLower seasonRaw
  let year ← pyGet animeSeason "year" (.num 2024)
  let synopsis ← pyGet entry "synopsis" (.str "")
  let picture ← pyGet entry "picture" (.str "")
  let tagsRaw ← pyGet entry "tags" (.arr [])
  let tags ← pySliceTen tagsRaw
  return { title := title, synonyms := synonyms, sources := sources,
           episodes := episodes, status := status, anime_type := animeType,
           anime_season := { season := season, year := year },
           synopsis := synopsis, poster_url := picture, tags := tags }

/-- The Python comparison x > 0 for the episodes field: defined on numbers and
booleans (bool is an int subtype in Python), raises TypeError
otherwise. The raise happens inside the try block of the scripts. -/
def pyGtZero (j : Json) : Except String Bool :=
  match j with
  | .num n => .ok (decide (0 < n))
  | .bool b => .ok b
  | _ => .error "TypeError: not supported between instances"

/-- Numeric value of an episodes field already known to compare
greater than zero (number, or Python True = 1). -/
def jsonToInt (j : Json) : Int :=
  match j with
  | .num n => n
  | .bool true => 1
  | _ => 0

/-- The Python expression range(a, b) as a list of integers. -/
def pyRange (a b : Int) : List Int :=
  (List.range (b - a).toNat).map (fun i : Nat => a + (i : Int))

/-- One placeholder episode record of the episodes_data batch; the
four remaining request fields are the constant null. -/
structure EpisodeEntry where
  episode_number : Int
  title : String
  duration : Json
  air_date : Json
  synopsis : Json
  thumbnail_url : Json


/-- The episode batch for a declared episode count n:
range(1, min(n + 1, capPlusOne)) placeholder records, capPlusOne
being 4 in import-more-data.py and 6 in test-data-import.py. -/
def buildEpisodes (n : Int) (capPlusOne : Int) : List EpisodeEntry :=
  (pyRange 1 (min (n + 1) capPlusOne)).map (fun ep =>
    { episode_number := ep, title := "Episode " ++ toString ep,
      duration := .null, air_date := .null,
      synopsis := .null, thumbnail_url := .null })

/-- Transport outcome of one HTTP request: a response with a status
code, or a raised transport exception. -/
inductive HttpResult where
  | status (code : Nat) : HttpResult
  | exn : HttpResult


/-- Whether an HTTP outcome is a raised exception. -/
def HttpResult.isExn : HttpResult → Bool
  | .exn => true
  | .status _ => false

/-- The behaviour of the backend towards one slice entry: the outcome of
its create-anime request, and of its create-episodes request should
one be issued. -/
structure EntryOutcome where
  animeResp : HttpResult
  episodesResp : HttpResult


/-- A create request issued to the backend. -/
inductive Call where
  | createAnime (body : AnimeData) : Call
  | createEpisodes (batch : List EpisodeEntry) : Call


/-- The two counters of the run. -/
structure RunCounters where
  success : Nat
  failure : Nat


/-- Result of a whole run: fatal pre-flight health-check failure
(sys.exit(1)), an uncaught exception while building a request body,
or normal completion with the final counters. Each constructor
carries the create requests issued up to that point. -/
inductive RunResult where
  | fatal (calls : List Call) : RunResult
  | crashed (calls : List Call) (msg : String) : RunResult
  | completed (calls : List Call) (counters : RunCounters) : RunResult


/-- Process one slice entry: build anime_data (outside the try block:
an error here is an uncaught crash), then run the try block with the
given transport outcomes. Returns the calls issued and whether the
entry counts as a success. The success increment sits after the
episodes request inside the try block, so an episodes transport
exception lands in the except handler and the entry counts as a
failure; an episodes response of any status code still counts as a
success. -/
def processEntry (capPlusOne : Int) (entry : Json) (out : EntryOutcome) :
    Except String (List Call × Bool) :=
  match buildAnimeData entry with
  | .error msg => .error msg
  | .ok animeData =>
    match out.animeResp with
    | .exn => .ok ([Call.createAnime animeData], false)
    | .status code =>
      if code = 201 then
        match pyGtZero animeData.episodes with
        | .error _ => .ok ([Call.createAnime animeData], false)
        | .ok false => .ok ([Call.createAnime animeData], true)
        | .ok true =>
          let batch := buildEpisodes (jsonToInt animeData.episodes) capPlusOne
          match out.episodesResp with
          | .exn =>
            .ok ([Call.createAnime animeData, Call.createEpisodes batch], false)
          | .status _ =>
            .ok ([Call.createAnime animeData, Call.createEpisodes batch], true)
      else
        .ok ([Call.createAnime animeData], false)

/-- The main loop over the selected slice, threading the issued-call
log and the two counters. A per-entry failure increments the failure
counter and the loop continues; an uncaught build error aborts the
run. -/
def runLoop (capPlusOne : Int) (oracle : Nat → EntryOutcome) :
    List Json → Nat → List Call → Nat → Nat → RunResult
  | [], _, calls, succ, fail => .completed calls ⟨succ, fail⟩
  | entry :: rest, i, calls, succ, fail =>
    match processEntry capPlusOne entry (oracle i) with
    | .error msg => .crashed calls msg
    | .ok (newCalls, isSucc) =>
      runLoop capPlusOne oracle rest (i + 1) (calls ++ newCalls)
        (if isSucc then succ + 1 else succ)
        (if isSucc then fail else fail + 1)

/-- A whole run: the pre-flight health check must return status 200,
otherwise the run exits fatally before any create request; then the
slice entries[startIndex : startIndex + limit] is processed in
order. -/
def runImport (capPlusOne : Int) (entries : List Json)
    (startIndex limit : Nat) (health : HttpResult)
    (oracle : Nat → EntryOutcome) : RunResult :=
  match health with
  | .exn => .fatal []
  | .status code =>
    if code ≠ 200 then .fatal []
    else runLoop capPlusOne oracle ((entries.drop startIndex).take limit) 0 [] 0 0

/-- The run of src/import-more-data.py: start index 10, limit 100,
at most 3 episodes per anime. -/
def runImportMoreData (entries : List Json) (health : HttpResult)
    (oracle : Nat → EntryOutcome) : RunResult :=
  runImport 4 entries 10 100 health oracle

/-- The run of src/test-data-import.py: the first 10 entries, at most
5 episodes per anime. -/
def runTestDataImport (entries : List Json) (health : HttpResult)
    (oracle : Nat → EntryOutcome) : RunResult :=
  runImport 6 entries 0 10 health oracle

/-! ## Concrete inputs used by counterexamples and witnesses -/

/-- A well-formed source entry with title "A" and two declared episodes. -/
def c1xEntry : Json := .obj [("title", .str "A"), ("episodes", .num 2)]

/-- The request body built from c1xEntry. -/
def c1xRecord : AnimeData :=
  { title := .str "A", synonyms := .arr [], sources := .arr [],
    episodes := .num 2, status := .str "UNKNOWN", anime_type := .str "UNKNOWN",
    anime_season := { season := .str "spring", year := .num 2024 },
    synopsis := .str "", poster_url := .str "", tags := .arr [] }

/-- A source entry declaring two episodes and nothing else. -/
def c1wEntry : Json := .obj [("episodes", .num 2)]

/-- The request body built from c1wEntry (all defaults, two episodes). -/
def c1wRecord : AnimeData :=
  { title := .str "Unknown", synonyms := .arr [], sources := .arr [],
    episodes := .num 2, status := .str "UNKNOWN", anime_type := .str "UNKNOWN",
    anime_season := { season := .str "spring", year := .num 2024 },
    synopsis := .str "", poster_url := .str "", tags := .arr [] }

/-- A source entry declaring one episode and nothing else. -/
def c3wEntry : Json := .obj [("episodes", .num 1)]

/-- The request body built from c3wEntry. -/
def c3wRecord : AnimeData :=
  { title := .str "Unknown", synonyms := .arr [], sources := .arr [],
    episodes := .num 1, status := .str "UNKNOWN", anime_type := .str "UNKNOWN",
    anime_season := { season := .str "spring", year := .num 2024 },
    synopsis := .str "", poster_url := .str "", tags := .arr [] }

/-- A source entry whose animeSeason field is a string, not an object. -/
def c4xEntry : Json := .obj [("title", .str "X"), ("animeSeason", .str "2024")]

/-- A source entry declaring seven episodes and nothing else. -/
def c5wEntry : Json := .obj [("episodes", .num 7)]

/-- The request body built from c5wEntry. -/
def c5wRecord : AnimeData :=
  { title := .str "Unknown", synonyms := .arr [], sources := .arr [],
    episodes := .num 7, status := .str "UNKNOWN", anime_type := .str "UNKNOWN",
    anime_season := { season := .str "spring", year := .num 2024 },
    synopsis := .str "", poster_url := .str "", tags := .arr [] }

/-- The k-th synthetic source entry of the end-to-end scenario. -/
def c6Entry (k : Nat) : Json := .obj [("title", .str ("A" ++ toString k))]

/-- A synthetic source file with twelve entries titled A1 to A12. -/
def c6Entries : List Json := (List.range 12).map (fun k => c6Entry (k + 1))

/-- The request body built from the k-th synthetic entry. -/
def c6Record (k : Nat) : AnimeData :=
  { title := .str ("A" ++ toString k), synonyms := .arr [], sources := .arr [],
    episodes := .num 0, status := .str "UNKNOWN", anime_type := .str "UNKNOWN",
    anime_season := { season := .str "spring", year := .num 2024 },
    synopsis := .str "", poster_url := .str "", tags := .arr [] }

/-- The request body built from c7wEntry. -/
def c7wRecord : AnimeData :=
  { title := .str "Unknown", synonyms := .arr [], sources := .arr [],
    episodes := .num 0, status := .str "UNKNOWN", anime_type := .str "UNKNOWN",
    anime_season := { season := .str "winter", year := .num 2024 },
    synopsis := .str "", poster_url := .str "", tags := .arr [] }

/-- Twelve tag strings, two more than the truncation limit. -/
def c8wTags : List Json :=
  [.str "t1", .str "t2", .str "t3", .str "t4", .str "t5", .str "t6",
   .str "t7", .str "t8", .str "t9", .str "t10", .str "t11", .str "t12"]

/-- The request body built from c8wEntry: tags truncated to the first
ten. -/
def c8wRecord : AnimeData :=
  { title := .str "Unknown", synonyms := .arr [], sources := .arr [],
    episodes := .num 0, status := .str "UNKNOWN", anime_type := .str "UNKNOWN",
    anime_season := { season := .str "spring", year := .num 2024 },
    synopsis := .str "", poster_url := .str "",
    tags := .arr (c8wTags.take 10) }

/-- The request body built from c9wEntry. -/
def c9wRecord : AnimeData :=
  { title := .str "T", synonyms := .arr [], sources := .arr [],
    episodes := .num 0, status := .str "UNKNOWN", anime_type := .str "UNKNOWN",
    anime_season := { season := .str "spring", year := .num 2024 },
    synopsis := .str "", poster_url := .str "", tags := .arr [] }

/-- The request body built from c10wEntryA: default season, kept year. -/
def c10wRecordA : AnimeData :=
  { title := .str "Unknown", synonyms := .arr [], sources := .arr [],
    episodes := .num 0, status := .str "UNKNOWN", anime_type := .str "UNKNOWN",
    anime_season := { season := .str "spring", year := .num 1999 },
    synopsis := .str "", poster_url := .str "", tags := .arr [] }

/-- The request body built from c10wEntryB: kept (lowercased) season,
default year. -/
def c10wRecordB : AnimeData :=
  { title := .str "Unknown", synonyms := .arr [], sources := .arr [],
    episodes := .num 0, status := .str "UNKNOWN", anime_type := .str "UNKNOWN",
    anime_season := { season := .str "fall", year := .num 2024 },
    synopsis := .str "", poster_url := .str "", tags := .arr [] }

/-! ## Helper lemmas -/

/-- On a dict receiver, the Python d.get(key, default) call never raises. -/
lemma pyGet_obj (fs : List (String × Json)) (k : String) (d : Json) :
    pyGet (Json.obj fs) k d = .ok ((dictGet fs k).getD d) := by
  cases h : dictGet fs k <;> simp [pyGet, h]

/-- On a dict entry, building anime_data reduces to the chain of its
four fallible steps (the season lookup, its lowercasing, the year
lookup and the tags truncation); every entry-level lookup succeeds. -/
lemma buildAnimeData_obj_eq (fs : List (String × Json)) :
    buildAnimeData (Json.obj fs) =
      Except.bind
        (pyGet ((dictGet fs "animeSeason").getD (.obj [])) "season" (.str "spring"))
        (fun seasonRaw => Except.bind (pyLower seasonRaw)
        (fun season => Except.bind
          (pyGet ((dictGet fs "animeSeason").getD (.obj [])) "year" (.num 2024))
        (fun year => Except.bind
          (pySliceTen ((dictGet fs "tags").getD (.arr [])))
        (fun tags => Except.ok
          { title := (dictGet fs "title").getD (.str "Unknown"),
            synonyms := (dictGet fs "synonyms").getD (.arr []),
            sources := (dictGet fs "sources").getD (.arr []),
            episodes := (dictGet fs "episodes").getD (.num 0),
            status := (dictGet fs "status").getD (.str "UNKNOWN"),
            anime_type := (dictGet fs "type").getD (.str "UNKNOWN"),
            anime_season := { season := season, year := year },
            synopsis := (dictGet fs "synopsis").getD (.str ""),
            poster_url := (dictGet fs "picture").getD (.str ""),
            tags := tags })))) := by
  simp only [buildAnimeData, pyGet_obj]
  rfl

/-- Characterization of a successful anime_data build on a dict entry:
each fallible step succeeded and every field holds the looked-up value
or its default. -/
lemma buildAnimeData_obj (fs : List (String × Json)) (ad : AnimeData)
    (hb : buildAnimeData (Json.obj fs) = .ok ad) :
    ∃ sr sn yr tg,
      pyGet ((dictGet fs "animeSeason").getD (.obj [])) "season" (.str "spring") = .ok sr ∧
      pyLower sr = .ok sn ∧
      pyGet ((dictGet fs "animeSeason").getD (.obj [])) "year" (.num 2024) = .ok yr ∧
      pySliceTen ((dictGet fs "tags").getD (.arr [])) = .ok tg ∧
      ad = { title := (dictGet fs "title").getD (.str "Unknown"),
             synonyms := (dictGet fs "synonyms").getD (.arr []),
             sources := (dictGet fs "sources").getD (.arr []),
             episodes := (dictGet fs "episodes").getD (.num 0),
             status := (dictGet fs "status").getD (.str "UNKNOWN"),
             anime_type := (dictGet fs "type").getD (.str "UNKNOWN"),
             anime_season := { season := sn, year := yr },
             synopsis := (dictGet fs "synopsis").getD (.str ""),
             poster_url := (dictGet fs "picture").getD (.str ""),
             tags := tg } := by
  rw [buildAnimeData_obj_eq] at hb
  cases hsr : pyGet ((dictGet fs "animeSeason").getD (.obj [])) "season" (.str "spring") with
  | error e => rw [hsr] at hb; simp [Except.bind] at hb
  | ok sr =>
    rw [hsr] at hb
    simp only [Except.bind] at hb
    cases hsn : pyLower sr with
    | error e => rw [hsn] at hb; simp [Except.bind] at hb
    | ok sn =>
      rw [hsn] at hb
      simp only [Except.bind] at hb
      cases hyr : pyGet ((dictGet fs "animeSeason").getD (.obj [])) "year" (.num 2024) with
      | error e => rw [hyr] at hb; simp [Except.bind] at hb
      | ok yr =>
        rw [hyr] at hb
        simp only [Except.bind] at hb
        cases htg : pySliceTen ((dictGet fs "tags").getD (.arr [])) with
        | error e => rw [htg] at hb; simp [Except.bind] at hb
        | ok tg =>
          rw [htg] at hb
          simp only [Except.bind, Except.ok.injEq] at hb
          exact ⟨sr, sn, yr, tg, rfl, hsn, rfl, rfl, hb.symm⟩

/-- The default season string is already lowercase. -/
lemma strLower_spring : strLower "spring" = "spring" := rfl

/-- One loop step: the calls of the entry are appended to the log and
the counter matching the outcome of the entry is incremented. -/
lemma runLoop_cons (capPlusOne : Int) (oracle : Nat → EntryOutcome)
    (entry : Json) (rest : List Json) (i : Nat) (calls : List Call)
    (succ fail : Nat) (cs : List Call) (flag : Bool)
    (h : processEntry capPlusOne entry (oracle i) = .ok (cs, flag)) :
    runLoop capPlusOne oracle (entry :: rest) i calls succ fail =
      runLoop capPlusOne oracle rest (i + 1) (calls ++ cs)
        (if flag then succ + 1 else succ) (if flag then fail else fail + 1) := by
  rw [runLoop, h]

/-- A transport exception on the create-anime request: one anime call
was issued and the entry is a failure. -/
lemma processEntry_animeExn (capPlusOne : Int) (entry : Json) (out : EntryOutcome)
    (ad : AnimeData) (hb : buildAnimeData entry = .ok ad)
    (ha : out.animeResp = .exn) :
    processEntry capPlusOne entry out = .ok ([Call.createAnime ad], false) := by
  unfold processEntry
  rw [hb, ha]

/-- Create-anime succeeded and the episodes count compares as not
greater than zero: only the anime call was issued, entry succeeds. -/
lemma processEntry_created_noEpisodes (capPlusOne : Int) (entry : Json)
    (out : EntryOutcome) (ad : AnimeData) (hb : buildAnimeData entry = .ok ad)
    (ha : out.animeResp = .status 201) (he : pyGtZero ad.episodes = .ok false) :
    processEntry capPlusOne entry out = .ok ([Call.createAnime ad], true) := by
  unfold processEntry
  rw [hb, ha]
  simp [he]

/-- Create-anime succeeded with a positive episode count: the episode
batch is sent, and the entry succeeds exactly when the episodes
request does not raise a transport exception (its status code is
irrelevant). -/
lemma processEntry_created_withEpisodes (capPlusOne : Int) (entry : Json)
    (out : EntryOutcome) (ad : AnimeData) (hb : buildAnimeData entry = .ok ad)
    (ha : out.animeResp = .status 201) (he : pyGtZero ad.episodes = .ok true) :
    processEntry capPlusOne entry out =
      .ok ([Call.createAnime ad,
            Call.createEpisodes (buildEpisodes (jsonToInt ad.episodes) capPlusOne)],
           !out.episodesResp.isExn) := by
  unfold processEntry
  rw [hb, ha]
  simp only [he]
  cases hr : out.episodesResp <;> simp [HttpResult.isExn]

/-- The batch for a declared count n and cap c carries the episode
numbers 1, 2, ..., min n c in order. -/
lemma buildEpisodes_map (n c : Int) :
    (buildEpisodes n (c + 1)).map EpisodeEntry.episode_number =
      (List.range (min n c).toNat).map (fun i : Nat => 1 + (i : Int)) := by
  have h : (min (n + 1) (c + 1) - 1).toNat = (min n c).toNat := by omega
  simp only [buildEpisodes, pyRange, List.map_map, h]
  rfl

/-- The batch for a declared count n and cap c has min n c entries. -/
lemma buildEpisodes_length (n c : Int) :
    (buildEpisodes n (c + 1)).length = (min n c).toNat := by
  simp only [buildEpisodes, pyRange]
  rw [List.length_map, List.length_map, List.length_range]
  omega

/-! ## Claims -/

/-- C1, counterexample: the claim says a creation-success status on the
create-anime request always increments RunCounters.success and never
RunCounters.failure, regardless of the outcome of the create-episodes
call. It is false: here the single entry receives status 201 on
create-anime, the create-episodes request raises a transport
exception, and the final counters are 0 successes, 1 failure, because
the success increment sits after the episodes request inside the try
block. -/
theorem C1_counterexample :
    runImport 4 [c1xEntry] 0 100 (.status 200) (fun _ => ⟨.status 201, .exn⟩) =
      .completed [.createAnime c1xRecord, .createEpisodes (buildEpisodes 2 4)]
        ⟨0, 1⟩ := rfl

/-- C1, amended: for an entry whose create-anime request returns
status 201 and whose episode count compares greater than zero, the
entry counts as a success exactly when the create-episodes request
does not raise a transport exception; a non-success episode response
status never withholds the success. -/
theorem C1_amended_theorem (capPlusOne : Int) (entry : Json) (out : EntryOutcome)
    (ad : AnimeData) (hb : buildAnimeData entry = .ok ad)
    (ha : out.animeResp = .status 201) (he : pyGtZero ad.episodes = .ok true) :
    processEntry capPlusOne entry out =
      .ok ([Call.createAnime ad,
            Call.createEpisodes (buildEpisodes (jsonToInt ad.episodes) capPlusOne)],
           !out.episodesResp.isExn) :=
  processEntry_created_withEpisodes capPlusOne entry out ad hb ha he

/-- C1, witness: a non-success status 500 on the create-episodes
request still yields a success for the entry. -/
theorem C1_amended_witness :
    processEntry 4 c1wEntry ⟨.status 201, .status 500⟩ =
      .ok ([Call.createAnime c1wRecord, Call.createEpisodes (buildEpisodes 2 4)],
           true) :=
  C1_amended_theorem 4 c1wEntry ⟨.status 201, .status 500⟩ c1wRecord rfl rfl rfl

/-- C2: if the pre-flight health check raises or returns any status
other than 200, the run exits fatally and the list of issued create
requests is empty. -/
theorem C2_theorem (capPlusOne : Int) (entries : List Json)
    (startIndex limit : Nat) (health : HttpResult) (oracle : Nat → EntryOutcome)
    (h : health ≠ .status 200) :
    runImport capPlusOne entries startIndex limit health oracle = .fatal [] := by
  unfold runImport
  cases health with
  | exn => rfl
  | status code =>
    have hc : code ≠ 200 := fun hcode => h (by rw [hcode])
    simp [hc]

/-- C2, witness: a health check answering 500 aborts the run with no
create requests issued. -/
theorem C2_witness :
    runImport 4 [] 0 100 (.status 500) (fun _ => ⟨.status 201, .status 201⟩) =
      .fatal [] :=
  C2_theorem 4 [] 0 100 (.status 500) (fun _ => ⟨.status 201, .status 201⟩)
    (by simp)

/-- C3: a transport exception raised during the HTTP calls of entry k
(either on the create-anime request, or on the create-episodes request
issued after a 201) is caught at the item boundary: the entry
contributes exactly one increment of RunCounters.failure, none of
RunCounters.success, and the loop continues with the remaining
entries. -/
theorem C3_theorem (capPlusOne : Int) (oracle : Nat → EntryOutcome)
    (entry : Json) (rest : List Json) (i : Nat) (calls : List Call)
    (succ fail : Nat) (ad : AnimeData) (hb : buildAnimeData entry = .ok ad)
    (hexn : (oracle i).animeResp = .exn ∨
      ((oracle i).animeResp = .status 201 ∧ pyGtZero ad.episodes = .ok true ∧
       (oracle i).episodesResp = .exn)) :
    ∃ cs, processEntry capPlusOne entry (oracle i) = .ok (cs, false) ∧
      runLoop capPlusOne oracle (entry :: rest) i calls succ fail =
        runLoop capPlusOne oracle rest (i + 1) (calls ++ cs) succ (fail + 1) := by
  rcases hexn with ha | ⟨ha, he, hee⟩
  · have hp := processEntry_animeExn capPlusOne entry (oracle i) ad hb ha
    refine ⟨_, hp, ?_⟩
    rw [runLoop_cons capPlusOne oracle entry rest i calls succ fail _ _ hp]
    rfl
  · have hp := processEntry_created_withEpisodes capPlusOne entry (oracle i) ad hb ha he
    rw [hee] at hp
    refine ⟨_, hp, ?_⟩
    rw [runLoop_cons capPlusOne oracle entry rest i calls succ fail _ _ hp]
    rfl

/-- C3, witness: a create-anime transport exception on the only entry
of the slice counts one failure and the loop moves on. -/
theorem C3_witness :
    ∃ cs, processEntry 4 c3wEntry ((fun _ => ⟨.exn, .status 201⟩) 0) = .ok (cs, false) ∧
      runLoop 4 (fun _ => ⟨.exn, .status 201⟩) [c3wEntry] 0 [] 0 0 =
        runLoop 4 (fun _ => ⟨.exn, .status 201⟩) [] 1 ([] ++ cs) 0 1 :=
  C3_theorem 4 (fun _ => ⟨.exn, .status 201⟩) c3wEntry [] 0 [] 0 0 c3wRecord rfl
    (Or.inl rfl)

/-- C4, counterexample: the claim says building the ImportRecord never
raises for any SourceEntry. It is false: an entry whose animeSeason
field is the string "2024" (not an object) raises an AttributeError
during record construction, and since the construction sits outside
the try block, the whole run crashes. -/
theorem C4_counterexample :
    buildAnimeData c4xEntry =
      .error "AttributeError: object has no attribute get" ∧
    runImport 4 [c4xEntry] 0 100 (.status 200)
        (fun _ => ⟨.status 201, .status 201⟩) =
      .crashed [] "AttributeError: object has no attribute get" :=
  ⟨rfl, rfl⟩

/-- C4, amended: building the ImportRecord never raises as long as the
fields that are fed to attribute or slice operations are well-typed
when present: animeSeason an object, its season a string, tags a list
or a string. Missing fields silently fall back to the defaults;
wrong-typed values for these three positions raise an uncaught error
that aborts the run. -/
theorem C4_amended_theorem (fs : List (String × Json))
    (hA : dictGet fs "animeSeason" = none ∨
      ∃ g, dictGet fs "animeSeason" = some (.obj g) ∧
        (dictGet g "season" = none ∨ ∃ s, dictGet g "season" = some (.str s)))
    (ht : dictGet fs "tags" = none ∨ (∃ ts, dictGet fs "tags" = some (.arr ts)) ∨
      ∃ s, dictGet fs "tags" = some (.str s)) :
    ∃ ad, buildAnimeData (.obj fs) = .ok ad := by
  rw [buildAnimeData_obj_eq]
  rcases hA with hA | ⟨g, hA, hs | ⟨s, hs⟩⟩ <;>
    rcases ht with ht | ⟨ts, ht⟩ | ⟨w, ht⟩ <;>
      simp_all [pyGet_obj, dictGet, pyLower, pySliceTen, Except.bind]

/-- C4, witness: the empty entry builds successfully with all fields
defaulted. -/
theorem C4_amended_witness :
    ∃ ad, buildAnimeData (.obj []) = .ok ad :=
  C4_amended_theorem [] (Or.inl rfl) (Or.inl rfl)

/-- C5: with create-anime succeeding, an entry declaring 0 episodes
issues no create-episodes call, and an entry declaring n > 0 episodes
issues exactly one create-episodes call whose batch has min n c
records numbered contiguously 1, 2, ..., min n c, where c is the
per-script episode cap (3 in import-more-data.py, 5 in
test-data-import.py, both instances of cap c with capPlusOne =
c + 1). -/
theorem C5_theorem (c : Int) (entry : Json) (out : EntryOutcome)
    (ad : AnimeData) (n : Int) (hb : buildAnimeData entry = .ok ad)
    (ha : out.animeResp = .status 201) (hn : ad.episodes = .num n) :
    (n = 0 → processEntry (c + 1) entry out = .ok ([Call.createAnime ad], true)) ∧
    (0 < n → ∃ flag, processEntry (c + 1) entry out =
        .ok ([Call.createAnime ad, Call.createEpisodes (buildEpisodes n (c + 1))],
             flag) ∧
      (buildEpisodes n (c + 1)).map EpisodeEntry.episode_number =
        (List.range (min n c).toNat).map (fun i : Nat => 1 + (i : Int)) ∧
      (buildEpisodes n (c + 1)).length = (min n c).toNat) := by
  constructor
  · intro h0
    have he : pyGtZero ad.episodes = .ok false := by
      rw [hn, h0]; rfl
    exact processEntry_created_noEpisodes (c + 1) entry out ad hb ha he
  · intro hpos
    have he : pyGtZero ad.episodes = .ok true := by
      rw [hn]; simp [pyGtZero, hpos]
    have hj : jsonToInt ad.episodes = n := by rw [hn]; rfl
    have hp := processEntry_created_withEpisodes (c + 1) entry out ad hb ha he
    rw [hj] at hp
    exact ⟨_, hp, buildEpisodes_map n c, buildEpisodes_length n c⟩

/-- C5, witness: an entry declaring 7 episodes under cap 3 issues one
episode batch of exactly 3 records numbered 1, 2, 3. -/
theorem C5_witness :
    ((7 : Int) = 0 → processEntry (3 + 1) c5wEntry ⟨.status 201, .status 201⟩ =
        .ok ([Call.createAnime c5wRecord], true)) ∧
    ((0 : Int) < 7 → ∃ flag, processEntry (3 + 1) c5wEntry ⟨.status 201, .status 201⟩ =
        .ok ([Call.createAnime c5wRecord,
              Call.createEpisodes (buildEpisodes 7 (3 + 1))], flag) ∧
      (buildEpisodes 7 (3 + 1)).map EpisodeEntry.episode_number =
        (List.range (min (7 : Int) 3).toNat).map (fun i : Nat => 1 + (i : Int)) ∧
      (buildEpisodes 7 (3 + 1)).length = (min (7 : Int) 3).toNat) :=
  C5_theorem 3 c5wEntry ⟨.status 201, .status 201⟩ c5wRecord 7 rfl rfl rfl

/-- C6: on a source file of 12 entries with a backend accepting every
create request, the import-more-data run (offset 10, limit 100)
processes exactly the entries at positions 11 and 12 in order and
finishes with 2 successes and 0 failures. -/
theorem C6_theorem :
    runImportMoreData c6Entries (.status 200)
        (fun _ => ⟨.status 201, .status 201⟩) =
      .completed [.createAnime (c6Record 11), .createAnime (c6Record 12)]
        ⟨2, 0⟩ := rfl

/-- C7: whenever the source entry carries an animeSeason object whose
season is a string, the built record stores that string fully
lowercased (per-character ASCII lowercasing). -/
theorem C7_theorem (fs g : List (String × Json)) (s : String) (ad : AnimeData)
    (hA : dictGet fs "animeSeason" = some (.obj g))
    (hs : dictGet g "season" = some (.str s))
    (hb : buildAnimeData (.obj fs) = .ok ad) :
    ad.anime_season.season = .str (strLower s) := by
  obtain ⟨sr, sn, yr, tg, hsr, hsn, hyr, htg, had⟩ := buildAnimeData_obj fs ad hb
  rw [hA, Option.getD_some, pyGet_obj, hs, Option.getD_some] at hsr
  injection hsr with hsr
  rw [← hsr] at hsn
  unfold pyLower at hsn
  injection hsn with hsn
  rw [had, ← hsn]

/-- C7, witness: the mixed-case season WiNtEr is stored as winter. -/
theorem C7_witness :
    c7wRecord.anime_season.season = .str (strLower "WiNtEr") :=
  C7_theorem [("animeSeason", .obj [("season", .str "WiNtEr")])]
    [("season", .str "WiNtEr")] "WiNtEr" c7wRecord rfl rfl rfl

/-- C8: the tags stored in the built record are the first ten source
tags: a list of length at most 10 that is a prefix (in original
order) of the source tag list, the empty list counting as the tag
list of an entry with no tags field. -/
theorem C8_theorem (fs : List (String × Json)) (ts : List Json) (ad : AnimeData)
    (htags : dictGet fs "tags" = some (.arr ts) ∨
      (dictGet fs "tags" = none ∧ ts = []))
    (hb : buildAnimeData (.obj fs) = .ok ad) :
    ad.tags = .arr (ts.take 10) ∧ (ts.take 10).length ≤ 10 ∧
      ∃ rest, ts.take 10 ++ rest = ts := by
  obtain ⟨sr, sn, yr, tg, hsr, hsn, hyr, htg, had⟩ := buildAnimeData_obj fs ad hb
  have h10 : tg = .arr (ts.take 10) := by
    rcases htags with h | ⟨h, hts⟩ <;> rw [h] at htg
    · rw [Option.getD_some] at htg
      unfold pySliceTen at htg
      injection htg with htg
      exact htg.symm
    · rw [Option.getD_none] at htg
      unfold pySliceTen at htg
      injection htg with htg
      rw [hts]
      exact htg.symm
  refine ⟨by rw [had, h10], ?_, ⟨ts.drop 10, List.take_append_drop 10 ts⟩⟩
  rw [List.length_take]
  omega

/-- C8, witness: an entry with twelve tags keeps exactly the first
ten, in order. -/
theorem C8_witness :
    c8wRecord.tags = .arr (c8wTags.take 10) ∧ (c8wTags.take 10).length ≤ 10 ∧
      ∃ rest, c8wTags.take 10 ++ rest = c8wTags :=
  C8_theorem [("tags", .arr c8wTags)] c8wTags c8wRecord (Or.inl rfl) rfl

/-- C9: an entry with no animeSeason field builds a record with season
spring and year 2024. -/
theorem C9_theorem (fs : List (String × Json)) (ad : AnimeData)
    (hA : dictGet fs "animeSeason" = none)
    (hb : buildAnimeData (.obj fs) = .ok ad) :
    ad.anime_season.season = .str "spring" ∧
      ad.anime_season.year = .num 2024 := by
  obtain ⟨sr, sn, yr, tg, hsr, hsn, hyr, htg, had⟩ := buildAnimeData_obj fs ad hb
  rw [hA, Option.getD_none, pyGet_obj] at hsr hyr
  simp only [dictGet, Option.getD_none] at hsr hyr
  injection hsr with hsr
  injection hyr with hyr
  rw [← hsr] at hsn
  unfold pyLower at hsn
  injection hsn with hsn
  rw [had, ← hsn, ← hyr]
  exact ⟨congrArg Json.str strLower_spring, rfl⟩

/-- C9, witness: an entry holding only a title gets season spring and
year 2024. -/
theorem C9_witness :
    c9wRecord.anime_season.season = .str "spring" ∧
      c9wRecord.anime_season.year = .num 2024 :=
  C9_theorem [("title", .str "T")] c9wRecord rfl rfl

/-- C10: the season and year defaults apply independently per
subfield. With animeSeason present as an object: a missing season key
yields season spring while a present year is kept verbatim, and a
present season is kept (stored lowercased, per the mapping) while a
missing year key yields year 2024. -/
theorem C10_theorem (fs g : List (String × Json)) (ad : AnimeData)
    (hA : dictGet fs "animeSeason" = some (.obj g))
    (hb : buildAnimeData (.obj fs) = .ok ad) :
    (dictGet g "season" = none →
      ad.anime_season.season = .str "spring" ∧
      ∀ y, dictGet g "year" = some y → ad.anime_season.year = y) ∧
    (∀ s, dictGet g "season" = some (.str s) → dictGet g "year" = none →
      ad.anime_season.season = .str (strLower s) ∧
      ad.anime_season.year = .num 2024) := by
  obtain ⟨sr, sn, yr, tg, hsr, hsn, hyr, htg, had⟩ := buildAnimeData_obj fs ad hb
  rw [hA, Option.getD_some, pyGet_obj] at hsr hyr
  constructor
  · intro hseason
    rw [hseason, Option.getD_none] at hsr
    injection hsr with hsr
    rw [← hsr] at hsn
    unfold pyLower at hsn
    injection hsn with hsn
    constructor
    · rw [had, ← hsn]
      exact congrArg Json.str strLower_spring
    · intro y hy
      rw [hy, Option.getD_some] at hyr
      injection hyr with hyr
      rw [had, ← hyr]
  · intro s hseason hyear
    rw [hseason, Option.getD_some] at hsr
    injection hsr with hsr
    rw [← hsr] at hsn
    unfold pyLower at hsn
    injection hsn with hsn
    rw [hyear, Option.getD_none] at hyr
    injection hyr with hyr
    rw [had, ← hsn, ← hyr]
    exact ⟨rfl, rfl⟩

/-- C10, witness: a year-only animeSeason keeps year 1999 with season
defaulting to spring, and a season-only animeSeason keeps the
lowercased season fall with year defaulting to 2024. -/
theorem C10_witness :
    (c10wRecordA.anime_season.season = .str "spring" ∧
     c10wRecordA.anime_season.year = .num 1999) ∧
    (c10wRecordB.anime_season.season = .str (strLower "FALL") ∧
     c10wRecordB.anime_season.year = .num 2024) :=
  ⟨⟨((C10_theorem [("animeSeason", .obj [("year", .num 1999)])]
        [("year", .num 1999)] c10wRecordA rfl rfl).1 rfl).1,
    ((C10_theorem [("animeSeason", .obj [("year", .num 1999)])]
        [("year", .num 1999)] c10wRecordA rfl rfl).1 rfl).2 (.num 1999) rfl⟩,
   (C10_theorem [("animeSeason", .obj [("season", .str "FALL")])]
        [("season", .str "FALL")] c10wRecordB rfl rfl).2 "FALL" rfl rfl⟩

end Kensho
